import Mathlib

/-!
Shallow embedding of the `nodejs-iam-client` repository's IAM session client
(`src/IAMClient.ts`, second/authoritative revision) and its React route guard
(`ProtectedRoute`).  Network effects are made explicit: every operation that
performs an HTTP request takes the outcome of that request
(`Except TransportError α`) as an argument, and operations that may or may not
issue a request report whether they did through a Boolean flag in their result.
Time (`Date.now()`) is passed explicitly as a natural number of milliseconds.
-/

namespace IAMClient

/-- A permission nested inside a role, as the reconciler sees it at runtime:
either a bare string or an object carrying a `name` field
(`typeof permission === 'string' ? permission : permission.name`). -/
inductive RolePermission where
  | str : String → RolePermission
  | obj : String → RolePermission
deriving DecidableEq, Repr

/-- Resolve a role permission to its string name. -/
def RolePermission.permName : RolePermission → String
  | .str s => s
  | .obj n => n

/-- A role: named group carrying an optional permission list (`Role` in
`src/types.ts`; only the field the reconciler reads is modelled). -/
structure Role where
  permissions : Option (List RolePermission)
deriving DecidableEq, Repr

/-- The user record, reduced to the field the reconciler reads
(`data.user?.roles`). -/
structure UserRec where
  roles : Option (List Role)
deriving DecidableEq, Repr

/-- `TokenVerificationResponse`, reduced to the fields the client reads. -/
structure TokenVerificationResponse where
  user : Option UserRec
  permissions : Option (List String)
deriving DecidableEq, Repr

/-- `LoginResponse`, reduced to the fields the client reads. -/
structure LoginResponse where
  access_token : String
  user : Option UserRec
  permissions : Option (List String)
deriving DecidableEq, Repr

/-- One JS `Set.add` step on an insertion-ordered set represented as a list:
a no-op when the name is already present, otherwise appended at the end. -/
def addPermission (acc : List String) (name : String) : List String :=
  if acc.contains name then acc else acc ++ [name]

/-- `new Set<string>(flat)`: seed the insertion-ordered set from the flat
list, de-duplicating while preserving first occurrence. -/
def seedPermissions (flat : List String) : List String :=
  flat.foldl addPermission []

/-- The inner loop of the reconciler: insert every permission name of one
role (`if (role.permissions) for (const permission of role.permissions)`). -/
def addRolePermissions (acc : List String) (role : Role) : List String :=
  match role.permissions with
  | some ps => ps.foldl (fun a p => addPermission a p.permName) acc
  | none => acc

/-- The common body of `extractPermissionsFromLoginResponse` and
`enrichPermissionsFromRoles`: seed with the flat list (empty when absent),
then fold every role's permissions into the set, and read the set back off
as a list (`Array.from`). -/
def collectPermissions (flat : Option (List String)) (roles : Option (List Role)) : List String :=
  let seed := seedPermissions (flat.getD [])
  match roles with
  | some rs => rs.foldl addRolePermissions seed
  | none => seed

/-- `extractPermissionsFromLoginResponse` (src/IAMClient.ts:718). -/
def extractPermissionsFromLoginResponse (response : LoginResponse) : List String :=
  collectPermissions response.permissions (response.user.bind UserRec.roles)

/-- `enrichPermissionsFromRoles` (src/IAMClient.ts:776): returns a new
response object with the reconciled permission list attached. -/
def enrichPermissionsFromRoles (data : TokenVerificationResponse) : TokenVerificationResponse :=
  { data with
    permissions := some (collectPermissions data.permissions (data.user.bind UserRec.roles)) }

/-- The value stored under one field of a response body's `errors` map:
the code checks `Array.isArray(messages)` and otherwise wraps the scalar in a
singleton list, so both shapes are modelled. -/
inductive FieldVal where
  | arr : List String → FieldVal
  | scalar : String → FieldVal
deriving DecidableEq, Repr

/-- The structured response body carried by a transport error: an optional
top-level `message` and an optional field-error map (JS object, so the field
order is insertion order). -/
structure ErrorBody where
  message : Option String
  errors : Option (List (String × FieldVal))
deriving DecidableEq, Repr

/-- JS truthiness of an optional string (`undefined` and the empty string are
falsy). -/
def optStrTruthy : Option String → Bool
  | some s => s != ""
  | none => false

/-- The raised transport error, as `handleError` discriminates it: an axios
error with a structured response body and status, an axios error without a
body (network/timeout), or a non-axios error with an optional message. -/
inductive TransportError where
  | axiosWithBody : ErrorBody → Nat → TransportError
  | axiosNoBody : String → TransportError
  | nonAxios : Option String → TransportError
deriving DecidableEq, Repr

/-- The normalized error `handleError` returns: a message plus the raw body
and status code attached for programmatic access. -/
structure NormalizedError where
  message : String
  data : Option ErrorBody
  statusCode : Option Nat
deriving DecidableEq, Repr

/-- `Object.values(errorData.errors)[0]` followed by the
`Array.isArray(firstFieldErrors) && firstFieldErrors.length > 0` guard:
the first field's first message, when the first field holds a non-empty
array. -/
def firstFieldFirstMessage : List (String × FieldVal) → Option String
  | (_, .arr (m :: _)) :: _ => some m
  | _ => none

/-- What the detailed-message step assigns (src/IAMClient.ts:1272-1277):
entered only when `preferDetailedMessage && errorData.errors` is truthy. -/
def detailedStepMessage (preferDetailedMessage : Bool) (body : ErrorBody) : Option String :=
  if preferDetailedMessage && body.errors.isSome then
    firstFieldFirstMessage (body.errors.getD [])
  else none

/-- What the top-level-message step assigns (src/IAMClient.ts:1278-1281):
the `else if (errorData.message)` branch, evaluated only when the detailed
branch was not entered. -/
def topLevelStepMessage (preferDetailedMessage : Bool) (body : ErrorBody) : Option String :=
  if preferDetailedMessage && body.errors.isSome then none
  else if optStrTruthy body.message then body.message
  else none

/-- The error text after the first two steps, with the caller's fallback
when neither step assigned. -/
def resolvedStepMessage (preferDetailedMessage : Bool) (body : ErrorBody)
    (message : String) : String :=
  match detailedStepMessage preferDetailedMessage body with
  | some m => m
  | none =>
    match topLevelStepMessage preferDetailedMessage body with
    | some m => m
    | none => message

/-- One field's message string: the messages joined by a comma and a space
(`msgs = Array.isArray(messages) ? messages : [messages]`, then joined). -/
def joinedFieldMessages : FieldVal → String
  | .arr ms => String.intercalate ", " ms
  | .scalar s => s

/-- The flattening of the whole field-error map
(src/IAMClient.ts:1285-1290): each field's messages joined by a comma and
space, fields joined by a semicolon and space.  The field name itself is
destructured but never used by the code. -/
def flattenFieldErrors (es : List (String × FieldVal)) : String :=
  String.intercalate "; " (es.map (fun fv => joinedFieldMessages fv.2))

/-- The final error text of `handleError` for an axios error with a body:
steps 3-4, then the "still unresolved" fallback to flattened field errors,
guarded by string equality with the caller's fallback message. -/
def handleErrorMessage (body : ErrorBody) (message : String)
    (preferDetailedMessage : Bool) : String :=
  let errorMessage := resolvedStepMessage preferDetailedMessage body message
  if errorMessage == message && body.errors.isSome then
    let fieldErrors := flattenFieldErrors (body.errors.getD [])
    if fieldErrors != "" then fieldErrors else errorMessage
  else errorMessage

/-- `handleError` (src/IAMClient.ts:1261-1308). -/
def handleError (error : TransportError) (message : String)
    (preferDetailedMessage : Bool) : NormalizedError :=
  match error with
  | .axiosWithBody body status =>
    { message := handleErrorMessage body message preferDetailedMessage
      data := some body
      statusCode := some status }
  | .axiosNoBody msg =>
    { message := message ++ ": " ++ msg, data := none, statusCode := none }
  | .nonAxios msg =>
    { message := message ++ ": " ++
        (match msg with
         | some m => if m == "" then "Unknown error" else m
         | none => "Unknown error")
      data := none
      statusCode := none }

/-- One entry of the token verification cache: the verified (enriched)
data plus the `Date.now()` timestamp recorded when it was stored. -/
structure CacheEntry where
  data : TokenVerificationResponse
  timestamp : Nat
deriving DecidableEq, Repr

/-- The mutable state of one `IAMClient` instance: the current token, the
token cache (a JS `Map`, modelled as an insertion-ordered association list),
and whether an `onTokenRefresh` callback was configured. -/
structure ClientState where
  token : Option String
  tokenCache : List (String × CacheEntry)
  hasOnTokenRefresh : Bool
deriving DecidableEq, Repr

/-- `Map.get`. -/
def cacheGet (cache : List (String × CacheEntry)) (key : String) : Option CacheEntry :=
  match cache.find? (fun kv => kv.1 == key) with
  | some kv => some kv.2
  | none => none

/-- `Map.set`: replaces in place when the key is present, otherwise appends. -/
def cacheSet (cache : List (String × CacheEntry)) (key : String) (entry : CacheEntry) :
    List (String × CacheEntry) :=
  if (cache.find? (fun kv => kv.1 == key)).isSome then
    cache.map (fun kv => if kv.1 == key then (key, entry) else kv)
  else cache ++ [(key, entry)]

/-- `Map.delete`. -/
def cacheDelete (cache : List (String × CacheEntry)) (key : String) :
    List (String × CacheEntry) :=
  cache.filter (fun kv => kv.1 != key)

/-- `cacheDuration` (src/IAMClient.ts:633): fixed at one minute, not
configurable. -/
def cacheDuration : Nat := 60000

/-- `clearTokenCache` (src/IAMClient.ts:800). -/
def clearTokenCache (st : ClientState) : ClientState :=
  { st with tokenCache := [] }

/-- `clearToken` (src/IAMClient.ts:688): clears the token and the cache. -/
def clearToken (st : ClientState) : ClientState :=
  clearTokenCache { st with token := none }

/-- `setToken` (src/IAMClient.ts:674). -/
def setToken (st : ClientState) (token : String) : ClientState :=
  { st with token := some token }

/-- `token || this.token` with JS truthiness: an absent or empty argument
falls back to the stored token. -/
def effectiveToken (st : ClientState) (tokenArg : Option String) : Option String :=
  match tokenArg with
  | some t => if t == "" then st.token else some t
  | none => st.token

/-- The error thrown by `verifyToken` when no token is available
(`new Error('No token provided')`). -/
def noTokenError : NormalizedError :=
  { message := "No token provided", data := none, statusCode := none }

/-- Result of one `verifyToken` call: the resolved or rejected value, the
client state afterwards, and whether a network request was issued. -/
structure VerifyOutcome where
  result : Except NormalizedError TokenVerificationResponse
  state : ClientState
  networkIssued : Bool
deriving Repr

/-- `verifyToken` (src/IAMClient.ts:739-771).  `now` is `Date.now()` and
`net` the outcome of `GET /auth/me` (consulted only when the cache does not
answer). -/
def verifyToken (st : ClientState) (tokenArg : Option String) (now : Nat)
    (net : Except TransportError TokenVerificationResponse) : VerifyOutcome :=
  match effectiveToken st tokenArg with
  | none => ⟨.error noTokenError, st, false⟩
  | some t =>
    if t == "" then ⟨.error noTokenError, st, false⟩
    else
      let cacheKey := "token_" ++ t
      let hit :=
        match cacheGet st.tokenCache cacheKey with
        | some cached =>
          if now - cached.timestamp < cacheDuration then some cached.data else none
        | none => none
      match hit with
      | some d => ⟨.ok d, st, false⟩
      | none =>
        match net with
        | .ok data =>
          let enrichedData := enrichPermissionsFromRoles data
          ⟨.ok enrichedData,
           { st with tokenCache := cacheSet st.tokenCache cacheKey ⟨enrichedData, now⟩ },
           true⟩
        | .error e =>
          ⟨.error (handleError e "Token verification failed" false),
           { st with tokenCache := cacheDelete st.tokenCache cacheKey },
           true⟩

/-- `login` (src/IAMClient.ts:698-713).  On success stores the returned
token and returns the response enriched with reconciled permissions; on
failure rethrows through `handleError` with the default (disabled)
detailed-message preference and leaves the state untouched. -/
def login (st : ClientState) (net : Except TransportError LoginResponse) :
    Except NormalizedError LoginResponse × ClientState :=
  match net with
  | .ok resp =>
    (.ok { resp with permissions := some (extractPermissionsFromLoginResponse resp) },
     setToken st resp.access_token)
  | .error e => (.error (handleError e "Login failed" false), st)

/-- `PermissionCheckResponse`. -/
structure PermissionCheckResponse where
  has_permission : Bool
deriving DecidableEq, Repr

/-- `RoleCheckResponse`. -/
structure RoleCheckResponse where
  has_role : Bool
deriving DecidableEq, Repr

/-- `hasPermission` (src/IAMClient.ts:836-849): the whole body is wrapped in
try/catch, so the function always returns a Boolean and on any failure returns
`false`. -/
def hasPermission (net : Except TransportError PermissionCheckResponse) : Bool :=
  match net with
  | .ok r => r.has_permission
  | .error _ => false

/-- `hasRole` (src/IAMClient.ts:854-867): same fail-closed shape. -/
def hasRole (net : Except TransportError RoleCheckResponse) : Bool :=
  match net with
  | .ok r => r.has_role
  | .error _ => false

/-- `RefreshTokenResponse`: the `access_token` field is modelled as optional
because the code guards on its truthiness (`if (response.data.access_token)`). -/
structure RefreshTokenResponse where
  access_token : Option String
deriving DecidableEq, Repr

/-- Result of one `refreshToken` call: resolved or rejected value, state
afterwards, and whether the configured `onTokenRefresh` callback was
invoked. -/
structure RefreshOutcome where
  result : Except NormalizedError RefreshTokenResponse
  state : ClientState
  callbackInvoked : Bool
deriving Repr

/-- `refreshToken` (src/IAMClient.ts:872-888): only a truthy (non-empty)
`access_token` in the response replaces the current token and triggers the
callback; the response is returned either way. -/
def refreshToken (st : ClientState) (net : Except TransportError RefreshTokenResponse) :
    RefreshOutcome :=
  match net with
  | .ok resp =>
    match resp.access_token with
    | some s =>
      if s == "" then ⟨.ok resp, st, false⟩
      else ⟨.ok resp, setToken st s, st.hasOnTokenRefresh⟩
    | none => ⟨.ok resp, st, false⟩
  | .error e => ⟨.error (handleError e "Token refresh failed" false), st, false⟩

/-- `logout` (src/IAMClient.ts:893-902): clears the token and cache on both
the success path and the catch path, and never rejects (hence the plain
`ClientState` result type). -/
def logout (st : ClientState) (net : Except TransportError Unit) : ClientState :=
  match net with
  | .ok _ => clearToken st
  | .error _ => clearToken st

/-- `logoutAll` (src/IAMClient.ts:907-915): clears local state only on the
success path; on failure rethrows through `handleError` and performs no
cleanup. -/
def logoutAll (st : ClientState) (net : Except TransportError Unit) :
    Except NormalizedError Unit × ClientState :=
  match net with
  | .ok _ => (.ok (), clearToken st)
  | .error e => (.error (handleError e "Logout all failed" false), st)

/-- Result of the route guard's `checkAccess`: the access decision, and
whether the permission check and the role check were issued. -/
structure AccessOutcome where
  hasAccess : Bool
  permissionCheckIssued : Bool
  roleCheckIssued : Bool
deriving DecidableEq, Repr

/-- `ProtectedRoute`'s `checkAccess` (src/unnamed/part_008:23-42):
unauthenticated users are denied immediately; otherwise a truthy
`requiredPermission` decides via the permission check, else a truthy
`requiredRole` decides via the role check, else access is allowed.
`permissionAnswer` and `roleAnswer` are the answers the respective awaited
checks would return. -/
def checkAccess (isAuthenticated : Bool) (requiredPermission requiredRole : Option String)
    (permissionAnswer roleAnswer : Bool) : AccessOutcome :=
  if !isAuthenticated then ⟨false, false, false⟩
  else if optStrTruthy requiredPermission then ⟨permissionAnswer, true, false⟩
  else if optStrTruthy requiredRole then ⟨roleAnswer, false, true⟩
  else ⟨true, false, false⟩

/-- The string names contributed by one role, in order. -/
def roleNameList (r : Role) : List String :=
  (r.permissions.getD []).map RolePermission.permName

/-- The full sequence of permission names a verification response presents to
the reconciler: the flat list first (empty when absent), then every role's
names, role by role. -/
def permissionNameSeq (data : TokenVerificationResponse) : List String :=
  data.permissions.getD [] ++
    (((data.user.bind UserRec.roles).getD []).map roleNameList).flatten

/-- The verification response of the spec's reconciliation example: flat list
`a, b` and one role contributing `b, c`. -/
def reconcileExample : TokenVerificationResponse :=
  ⟨some ⟨some [⟨some [.str "b", .obj "c"]⟩]⟩, some ["a", "b"]⟩

/-- A response body holding a field-error map and a top-level message, as in
the spec's error-preference example. -/
def otpBadRequestBody : ErrorBody :=
  ⟨some "Bad request", some [("otp", .arr ["Invalid code"])]⟩

/-- A body whose first field error coincides with a caller's fallback text. -/
def collidingBody : ErrorBody :=
  ⟨some "Bad request", some [("a", .arr ["Fallback msg"]), ("b", .arr ["Other"])]⟩

/-- A body with only a field-error map (one field). -/
def fieldOnlyBody : ErrorBody :=
  ⟨none, some [("otp", .arr ["Invalid code"])]⟩

/-- A body with only a field-error map (two fields, several messages). -/
def twoFieldBody : ErrorBody :=
  ⟨none, some [("otp", .arr ["Invalid code"]), ("phone", .arr ["Bad phone", "Too short"])]⟩

/-- A fresh client with no token, an empty cache, and no refresh callback. -/
def initialClientState : ClientState := ⟨none, [], false⟩

/-- A cached verification result used in concrete scenarios. -/
def cachedData : TokenVerificationResponse := ⟨none, some ["users.view"]⟩

/-- A client whose cache holds an entry for token `T1` stored at time 1000. -/
def cachedState : ClientState :=
  ⟨some "T1", [("token_T1", ⟨cachedData, 1000⟩)], false⟩

/-- A live verification response used in concrete scenarios. -/
def freshData : TokenVerificationResponse :=
  ⟨some ⟨some [⟨some [.obj "forms.create"]⟩]⟩, none⟩

/-- Inserting into the insertion-ordered set preserves freedom from
duplicates. -/
theorem addPermission_nodup (acc : List String) (x : String) (h : acc.Nodup) :
    (addPermission acc x).Nodup := by
  unfold addPermission
  split
  · exact h
  · rename_i hc
    have hx : x ∉ acc := by
      intro hmem
      exact hc (by simpa using hmem)
    simpa [List.nodup_append, hx] using h

/-- Folding any name sequence into a duplicate-free set keeps it
duplicate-free. -/
theorem foldl_addPermission_nodup :
    ∀ (l acc : List String), acc.Nodup → (l.foldl addPermission acc).Nodup
  | [], _, h => h
  | x :: xs, acc, h =>
    foldl_addPermission_nodup xs (addPermission acc x) (addPermission_nodup acc x h)

/-- One role's inner loop is the fold of its name list. -/
theorem addRolePermissions_eq_foldl (acc : List String) (r : Role) :
    addRolePermissions acc r = (roleNameList r).foldl addPermission acc := by
  cases hp : r.permissions with
  | some ps =>
    simp only [addRolePermissions, roleNameList, hp, Option.getD_some]
    exact (List.foldl_map RolePermission.permName addPermission ps acc).symm
  | none => simp [addRolePermissions, roleNameList, hp]

/-- The role loop is the fold of the concatenated role name lists. -/
theorem foldl_addRolePermissions_eq :
    ∀ (rs : List Role) (acc : List String),
      rs.foldl addRolePermissions acc =
        ((rs.map roleNameList).flatten).foldl addPermission acc
  | [], _ => rfl
  | r :: rs, acc => by
    rw [List.foldl_cons, foldl_addRolePermissions_eq rs, addRolePermissions_eq_foldl]
    simp only [List.map_cons, List.flatten_cons, List.foldl_append]

/-- The whole reconciler is a single left fold of the flat list followed by
the concatenated role name lists, inserted into an initially empty
insertion-ordered set. -/
theorem collectPermissions_eq (flat : Option (List String)) (roles : Option (List Role)) :
    collectPermissions flat roles =
      ((flat.getD []) ++ ((roles.getD []).map roleNameList).flatten).foldl addPermission [] := by
  cases roles with
  | some rs =>
    simp only [collectPermissions, seedPermissions, Option.getD_some,
      foldl_addRolePermissions_eq, List.foldl_append]
  | none => simp [collectPermissions, seedPermissions]

/-- C1: a verification result cached for token T at time t0 is returned
without a network request at any time t1 with t1 - t0 < 60000 and with the
state untouched; at t1 - t0 >= 60000 a network request is issued, and on
success its permission-reconciled result replaces the cache entry for T
(stamped t1) and is returned. -/
theorem claim_C1 (st : ClientState) (tokenArg : Option String) (t : String)
    (d : TokenVerificationResponse)
    (t0 t1 : Nat) (net : Except TransportError TokenVerificationResponse)
    (heff : effectiveToken st tokenArg = some t) (ht : t ≠ "")
    (hc : cacheGet st.tokenCache ("token_" ++ t) = some ⟨d, t0⟩) :
    (t1 - t0 < 60000 → verifyToken st tokenArg t1 net = ⟨.ok d, st, false⟩) ∧
    (60000 ≤ t1 - t0 →
      (verifyToken st tokenArg t1 net).networkIssued = true ∧
      ∀ data, net = .ok data →
        verifyToken st tokenArg t1 net =
          ⟨.ok (enrichPermissionsFromRoles data),
           { st with
             tokenCache := cacheSet st.tokenCache ("token_" ++ t)
               ⟨enrichPermissionsFromRoles data, t1⟩ },
           true⟩) := by
  constructor
  · intro hlt
    simp [verifyToken, heff, ht, hc, cacheDuration, hlt]
  · intro hge
    have hnlt : ¬ t1 - t0 < 60000 := not_lt.mpr hge
    constructor
    · cases net with
      | ok data => simp [verifyToken, heff, ht, hc, cacheDuration, hnlt]
      | error e => simp [verifyToken, heff, ht, hc, cacheDuration, hnlt]
    · intro data hdata
      subst hdata
      simp [verifyToken, heff, ht, hc, cacheDuration, hnlt]

/-- Witness for C1: a fresh read at time 2000 of an entry stored at time
1000 answers from the cache without a network request, and a read at time
61000 issues the request and re-caches the reconciled result. -/
theorem claim_C1_witness :
    verifyToken cachedState (some "T1") 2000 (.error (.axiosNoBody "net down")) =
      ⟨.ok cachedData, cachedState, false⟩ ∧
    verifyToken cachedState (some "T1") 61000 (.ok freshData) =
      ⟨.ok (enrichPermissionsFromRoles freshData),
       { cachedState with
         tokenCache := cacheSet cachedState.tokenCache ("token_" ++ "T1")
           ⟨enrichPermissionsFromRoles freshData, 61000⟩ },
       true⟩ :=
  ⟨(claim_C1 cachedState (some "T1") "T1" cachedData 1000 2000
      (.error (.axiosNoBody "net down")) (by decide) (by decide) (by decide)).1 (by decide),
   ((claim_C1 cachedState (some "T1") "T1" cachedData 1000 61000 (.ok freshData)
      (by decide) (by decide) (by decide)).2 (by decide)).2 freshData rfl⟩

/-- C2: the reconciler's output is the insertion-ordered-set fold of the
flat list followed by each role's names in order (skipping names already
present), it is always duplicate-free, and the spec's example - flat list
`a, b` with one role contributing `b, c` - yields exactly `a, b, c`. -/
theorem claim_C2 :
    (∀ data : TokenVerificationResponse,
      (enrichPermissionsFromRoles data).permissions =
        some ((permissionNameSeq data).foldl addPermission []) ∧
      ((enrichPermissionsFromRoles data).permissions.getD []).Nodup) ∧
    (enrichPermissionsFromRoles reconcileExample).permissions = some ["a", "b", "c"] := by
  refine ⟨fun data => ⟨?_, ?_⟩, by rfl⟩
  · simp [enrichPermissionsFromRoles, permissionNameSeq, collectPermissions_eq]
  · simp only [enrichPermissionsFromRoles, collectPermissions_eq, Option.getD_some]
    exact foldl_addPermission_nodup _ [] List.nodup_nil

/-- C3 fails as stated: when the first field's first message coincides with
the caller's fallback text, the "still unresolved" test (string equality
with the fallback) misfires and the flattened field errors replace the
detailed message. -/
theorem claim_C3_counterexample :
    firstFieldFirstMessage [("a", FieldVal.arr ["Fallback msg"]), ("b", FieldVal.arr ["Other"])] =
      some "Fallback msg" ∧
    (handleError (.axiosWithBody collidingBody 400) "Fallback msg" true).message =
      "Fallback msg; Other" ∧
    "Fallback msg; Other" ≠ "Fallback msg" := by
  refine ⟨rfl, rfl, by decide⟩

/-- C3 (amended): with the detailed-message preference set, a body whose
field-error map's first field holds a non-empty message list yields that
first message whenever it differs from the fallback; when no field-error
map is present, a non-empty top-level message is used. -/
theorem claim_C3 (body : ErrorBody) (fallback : String) (status : Nat) :
    (∀ f m ms rest, body.errors = some ((f, FieldVal.arr (m :: ms)) :: rest) →
      m ≠ fallback →
      (handleError (.axiosWithBody body status) fallback true).message = m) ∧
    (body.errors = none → ∀ m, body.message = some m → m ≠ "" →
      (handleError (.axiosWithBody body status) fallback true).message = m) := by
  constructor
  · intro f m ms rest he hm
    simp [handleError, handleErrorMessage, resolvedStepMessage, detailedStepMessage,
      firstFieldFirstMessage, he, hm]
  · intro he m hmsg hm
    simp [handleError, handleErrorMessage, resolvedStepMessage, detailedStepMessage,
      topLevelStepMessage, optStrTruthy, he, hmsg, hm]

/-- Witness for C3: the spec's example body - field errors with a single
`otp` entry plus a top-level `Bad request` - yields `Invalid code` under the
detailed-message preference. -/
theorem claim_C3_witness :
    (handleError (.axiosWithBody otpBadRequestBody 422) "Phone login failed" true).message =
      "Invalid code" :=
  (claim_C3 otpBadRequestBody "Phone login failed" 422).1 "otp" "Invalid code" [] []
    rfl (by decide)

/-- C4 fails as stated: the code destructures the field name but never uses
it, so the flattened text carries no `field:` prefix. -/
theorem claim_C4_counterexample :
    (handleError (.axiosWithBody fieldOnlyBody 422) "Failed to send OTP" false).message =
      "Invalid code" ∧
    "Invalid code" ≠ "otp: Invalid code" := by
  refine ⟨rfl, by decide⟩

/-- C4 (amended): when neither the detailed-message step nor the
top-level-message step produced a text and the body carries a field-error
map whose flattening is non-empty, the error message is that flattening:
each field's messages joined by a comma and a space, fields joined by a
semicolon and a space, without the field names. -/
theorem claim_C4 (preferDetailedMessage : Bool) (body : ErrorBody) (fallback : String)
    (status : Nat)
    (hd : detailedStepMessage preferDetailedMessage body = none)
    (hm : topLevelStepMessage preferDetailedMessage body = none)
    (he : body.errors.isSome = true)
    (hne : flattenFieldErrors (body.errors.getD []) ≠ "") :
    (handleError (.axiosWithBody body status) fallback preferDetailedMessage).message =
      flattenFieldErrors (body.errors.getD []) := by
  simp [handleError, handleErrorMessage, resolvedStepMessage, hd, hm, he, hne]

/-- Witness for C4: a two-field error map with no top-level message and the
preference disabled flattens to `Invalid code; Bad phone, Too short`. -/
theorem claim_C4_witness :
    (handleError (.axiosWithBody twoFieldBody 422) "Failed to send OTP" false).message =
      "Invalid code; Bad phone, Too short" :=
  claim_C4 false twoFieldBody "Failed to send OTP" 422 rfl rfl rfl (by decide)

/-- C5: a failed login leaves the whole client state - in particular the
current token returned by getToken - exactly as it was. -/
theorem claim_C5 (st : ClientState) (e : TransportError) :
    (login st (.error e)).2.token = st.token ∧ (login st (.error e)).2 = st :=
  ⟨rfl, rfl⟩

/-- C6 fails as stated: login normalizes its failure without the
detailed-message preference (the third `handleError` argument is omitted and
defaults to false), so the example body yields the top-level `Bad request`,
not the field message `Invalid code`. -/
theorem claim_C6_counterexample :
    (login initialClientState (.error (.axiosWithBody otpBadRequestBody 400))).1 =
      .error ⟨"Bad request", some otpBadRequestBody, some 400⟩ ∧
    "Bad request" ≠ "Invalid code" := by
  refine ⟨rfl, by decide⟩

/-- C6 (amended): when login fails with a body carrying a non-empty
top-level message distinct from the fallback `Login failed`, the raised
error carries that top-level message - the field-error map is not preferred,
because the preference is disabled. -/
theorem claim_C6 (st : ClientState) (body : ErrorBody) (status : Nat) (m : String)
    (hmsg : body.message = some m) (hne : m ≠ "") (hnf : m ≠ "Login failed") :
    (login st (.error (.axiosWithBody body status))).1 =
      .error ⟨m, some body, some status⟩ := by
  simp [login, handleError, handleErrorMessage, resolvedStepMessage, detailedStepMessage,
    topLevelStepMessage, optStrTruthy, hmsg, hne, hnf]

/-- Witness for C6: the example body with `errors.otp = [Invalid code]` and
`message = Bad request` makes a failed login raise `Bad request`. -/
theorem claim_C6_witness :
    (login initialClientState (.error (.axiosWithBody otpBadRequestBody 400))).1 =
      .error ⟨"Bad request", some otpBadRequestBody, some 400⟩ :=
  claim_C6 initialClientState otpBadRequestBody 400 "Bad request" rfl (by decide) (by decide)

/-- C7: a rejected check-permission or check-role request makes
hasPermission and hasRole resolve to false (they are total Boolean
functions of the request outcome, so they never reject); a resolved request
yields the response flag. -/
theorem claim_C7 :
    (∀ e, hasPermission (.error e) = false) ∧
    (∀ r, hasPermission (.ok r) = r.has_permission) ∧
    (∀ e, hasRole (.error e) = false) ∧
    (∀ r, hasRole (.ok r) = r.has_role) :=
  ⟨fun _ => rfl, fun _ => rfl, fun _ => rfl, fun _ => rfl⟩

/-- C8: logout clears the token and the cache whatever the remote outcome
and never rejects (its result is a plain state), while logoutAll clears
only on success and on a remote failure propagates the normalized error
with the state - token and cache - untouched. -/
theorem claim_C8 :
    (∀ st net, logout st net = clearToken st) ∧
    (∀ st net, (logout st net).token = none ∧ (logout st net).tokenCache = []) ∧
    (∀ st, logoutAll st (.ok ()) = (.ok (), clearToken st)) ∧
    (∀ st e, logoutAll st (.error e) =
      (.error (handleError e "Logout all failed" false), st)) := by
  refine ⟨fun st net => ?_, fun st net => ?_, fun st => rfl, fun st e => rfl⟩
  · cases net <;> rfl
  · cases net <;> exact ⟨rfl, rfl⟩

/-- C9: the route guard denies an unauthenticated user without issuing the
permission or role check whatever is required; for an authenticated user a
set requiredPermission decides via the permission check (the role check is
not issued), otherwise a set requiredRole decides via the role check,
otherwise access is allowed with no check issued. -/
theorem claim_C9 (p r : String) (hp : p ≠ "") (hr : r ≠ "")
    (permissionAnswer roleAnswer : Bool) (reqPerm reqRole : Option String) :
    checkAccess false reqPerm reqRole permissionAnswer roleAnswer = ⟨false, false, false⟩ ∧
    checkAccess true (some p) reqRole permissionAnswer roleAnswer =
      ⟨permissionAnswer, true, false⟩ ∧
    checkAccess true none (some r) permissionAnswer roleAnswer = ⟨roleAnswer, false, true⟩ ∧
    checkAccess true none none permissionAnswer roleAnswer = ⟨true, false, false⟩ := by
  refine ⟨?_, ?_, ?_, ?_⟩ <;> simp [checkAccess, optStrTruthy, hp, hr]

/-- Witness for C9: concrete evaluations of the guard - an unauthenticated
user with both requirements set is denied with no check issued. -/
theorem claim_C9_witness :
    checkAccess false (some "admin") (some "admin") true false = ⟨false, false, false⟩ ∧
    checkAccess true (some "users.view") (some "admin") true false = ⟨true, true, false⟩ ∧
    checkAccess true none (some "admin") true false = ⟨false, false, true⟩ ∧
    checkAccess true none none true false = ⟨true, false, false⟩ :=
  have h := claim_C9 "users.view" "admin" (by decide) (by decide) true false
    (some "admin") (some "admin")
  ⟨h.1, h.2.1, h.2.2.1, h.2.2.2⟩

/-- C10: a refresh response without a usable access_token (absent or empty)
is still returned, but the client state - in particular the current token -
is untouched and the refresh callback is not invoked; a response with a
non-empty access_token replaces the token and invokes the callback exactly
when one is configured. -/
theorem claim_C10 (st : ClientState) (resp : RefreshTokenResponse)
    (h : resp.access_token = none ∨ resp.access_token = some "") :
    refreshToken st (.ok resp) = ⟨.ok resp, st, false⟩ ∧
    (∀ (st2 : ClientState) (r2 : RefreshTokenResponse) (s : String),
      r2.access_token = some s → s ≠ "" →
      refreshToken st2 (.ok r2) = ⟨.ok r2, setToken st2 s, st2.hasOnTokenRefresh⟩) := by
  constructor
  · rcases h with h | h <;> simp [refreshToken, h]
  · intro st2 r2 s hs hne
    simp [refreshToken, hs, hne]

/-- Witness for C10: a response with no access_token leaves token `OLD` in
place with the callback not invoked; a response carrying `NEW` replaces the
token and invokes the configured callback. -/
theorem claim_C10_witness :
    refreshToken ⟨some "OLD", [], true⟩ (.ok ⟨none⟩) =
      ⟨.ok ⟨none⟩, ⟨some "OLD", [], true⟩, false⟩ ∧
    refreshToken ⟨some "OLD", [], true⟩ (.ok ⟨some "NEW"⟩) =
      ⟨.ok ⟨some "NEW"⟩, setToken ⟨some "OLD", [], true⟩ "NEW", true⟩ :=
  have h := claim_C10 ⟨some "OLD", [], true⟩ ⟨none⟩ (Or.inl rfl)
  ⟨h.1, h.2 ⟨some "OLD", [], true⟩ ⟨some "NEW"⟩ "NEW" rfl (by decide)⟩

end IAMClient
